import Mathlib

/-!
# Wasmica: the module header check of `parse_module`

A shallow embedding of `src/parse_module.c` and of the types declared in
`src/parse_module.h`, followed by theorems about the embedded function.

Conventions of the embedding

* A byte (`uint8_t`) is a `Nat`; the buffer object behind a non-null
  `const uint8_t *` is the `List Nat` of its bytes, and `wasm + k` is
  `List.drop k`.
* A pointer that may be NULL is an `Option`; `none` is NULL.
* `Result` is `const char *`: `none` is NULL (`Err_none`), `some s` is the
  diagnostic string `s`.
* The slot `*out` is passed in with the value the caller left in it, and the
  value it holds when the call returns is part of the outcome.
* `malloc` is the only access to the host; whether it succeeds is a Boolean
  argument of the call.
* Reading past the end of the buffer object is undefined in C; the embedding
  returns `none` for the whole call in that case.
* The `uint32_t` length is a `Nat`; it is only ever compared with 8, so no
  wrap-around arises and the theorems hold for every length, those below
  `2 ^ 32` among them.
* `out` itself is taken to be a valid pointer to the caller's slot.
-/

namespace Wasmica

/-! ## Types of `parse_module.h` -/

/-- `typedef const char * Result;` with `none` for NULL. -/
abbrev Result := Option String

/-- `typedef struct Environment * IEnvironment;` The struct is incomplete in
the source, so a pointer to it is only an address, `none` for NULL. -/
abbrev IEnvironment := Option Nat

/-- `struct Module { /* placeholder for future members */ };` has no member. -/
structure Module where
  deriving DecidableEq, Repr

/-- `typedef struct Module * IModule;` with `none` for NULL. -/
abbrev IModule := Option Module

/-! ## Constants of `parse_module.c` -/

/-- `static const uint8_t WASM_MAGIC[] = {0x00, 0x61, 0x73, 0x6d};` -/
def WASM_MAGIC : List Nat := [0x00, 0x61, 0x73, 0x6d]

/-- `static const uint8_t WASM_VERSION[] = {0x01, 0x00, 0x00, 0x00};` -/
def WASM_VERSION : List Nat := [0x01, 0x00, 0x00, 0x00]

/-! ## Library functions used by `parse_module` -/

/-- Byte-wise comparison of two byte runs: zero when no position differs,
otherwise the difference of the first pair of bytes that differ. -/
def memcmp_bytes : List Nat → List Nat → Int
  | a :: s1, b :: s2 => if a = b then memcmp_bytes s1 s2 else (a : Int) - (b : Int)
  | _, _ => 0

/-- `memcmp(s1, s2, n)`: compares the first `n` bytes of the two objects.
Both objects must hold `n` bytes; otherwise the read is out of bounds and the
call is undefined (`none`). -/
def memcmp (s1 s2 : List Nat) (n : Nat) : Option Int :=
  if n ≤ s1.length ∧ n ≤ s2.length then
    some (memcmp_bytes (s1.take n) (s2.take n))
  else
    none

/-- `malloc(sizeof(struct Module))`: a pointer to a fresh `Module` when the
host grants the allocation, NULL when it does not. The struct has no member,
so the fresh object has no indeterminate content. -/
def malloc (granted : Bool) : IModule :=
  if granted then some {} else none

/-! ## `parse_module` -/

/-- What the caller observes when `parse_module` returns: the returned
`Result` and the value held by `*out`. -/
structure Outcome where
  result : Result
  out : IModule
  deriving DecidableEq, Repr

/-- `Result parse_module(IEnvironment env, IModule *out, const uint8_t *wasm,
uint32_t size)`.

`out` is the value of `*out` at entry, `wasm` the buffer object behind the
pointer (`none` for a NULL pointer), `size` the `uint32_t` argument and
`granted` the answer of the host to the single `malloc` call. The value is
`none` when a read leaves the buffer object. -/
def parse_module (_env : IEnvironment) (out : IModule) (wasm : Option (List Nat))
    (size : Nat) (granted : Bool) : Option Outcome :=
  match wasm with
  | none => some { result := some "file_too_small", out := out }
  | some buf =>
    if size < 8 then
      some { result := some "file_too_small", out := out }
    else
      match memcmp buf WASM_MAGIC 4 with
      | none => none
      | some c1 =>
        if c1 ≠ 0 then
          some { result := some "bad_magic", out := out }
        else
          match memcmp (buf.drop 4) WASM_VERSION 4 with
          | none => none
          | some c2 =>
            if c2 ≠ 0 then
              some { result := some "bad_version", out := out }
            else
              let out1 := malloc granted
              if out1.isNone then
                some { result := some "malloc_failed", out := out1 }
              else
                some { result := none, out := out1 }

/-- The contract on the pointer and length arguments: a non-null `wasm`
points to an object of at least `size` bytes. -/
def ValidBuffer (wasm : Option (List Nat)) (size : Nat) : Prop :=
  ∀ buf, wasm = some buf → size ≤ buf.length

instance (wasm : Option (List Nat)) (size : Nat) : Decidable (ValidBuffer wasm size) :=
  match wasm with
  | none => isTrue (by intro buf h; cases h)
  | some b =>
    if h : size ≤ b.length then
      isTrue (by intro buf hb; cases hb; exact h)
    else
      isFalse (by intro hv; exact h (hv b rfl))

/-- The result of a call written as the priority list of its description:
`file_too_small` for a NULL pointer or a length below 8, else `bad_magic` when
the first 4 bytes are not the magic constant, else `bad_version` when bytes
4..7 are not the version constant, else `malloc_failed` when the allocation is
refused, else success. -/
def header_result (wasm : Option (List Nat)) (size : Nat) (granted : Bool) : Result :=
  match wasm with
  | none => some "file_too_small"
  | some buf =>
    if size < 8 then some "file_too_small"
    else if buf.take 4 ≠ [0x00, 0x61, 0x73, 0x6d] then some "bad_magic"
    else if (buf.drop 4).take 4 ≠ [0x01, 0x00, 0x00, 0x00] then some "bad_version"
    else if granted = false then some "malloc_failed"
    else none

/-! ## The reads of `parse_module` -/

/-- The offsets, counted from the start of the buffer object, that
`memcmp(wasm + base, _, n)` may read in it: `base`, ..., `base + n - 1`. -/
def memcmp_offsets (base n : Nat) : List Nat :=
  (List.range n).map (fun i => base + i)

/-- `parse_module` run with a record of its reads: the first component lists,
in program order, the offsets of the buffer object that the statements
executed so far have read; the second component is the value of
`parse_module`. The guard `!wasm || size < 8` reads no byte; the comparison
with `WASM_MAGIC` reads at `wasm`, the comparison with `WASM_VERSION` at
`wasm + 4`. -/
def parse_module_traced (_env : IEnvironment) (out : IModule) (wasm : Option (List Nat))
    (size : Nat) (granted : Bool) : List Nat × Option Outcome :=
  match wasm with
  | none => ([], some { result := some "file_too_small", out := out })
  | some buf =>
    if size < 8 then
      ([], some { result := some "file_too_small", out := out })
    else
      let reads1 := memcmp_offsets 0 4
      match memcmp buf WASM_MAGIC 4 with
      | none => (reads1, none)
      | some c1 =>
        if c1 ≠ 0 then
          (reads1, some { result := some "bad_magic", out := out })
        else
          let reads2 := reads1 ++ memcmp_offsets 4 4
          match memcmp (buf.drop 4) WASM_VERSION 4 with
          | none => (reads2, none)
          | some c2 =>
            if c2 ≠ 0 then
              (reads2, some { result := some "bad_version", out := out })
            else
              let out1 := malloc granted
              if out1.isNone then
                (reads2, some { result := some "malloc_failed", out := out1 })
              else
                (reads2, some { result := none, out := out1 })

/-! ## Small checks of the embedding -/

example : parse_module_traced none none (some [0, 0x61, 0x73, 0x6d, 1, 0, 0, 0, 9]) 9 true
    = ([0, 1, 2, 3, 4, 5, 6, 7], some { result := none, out := some {} }) := by decide

example : parse_module_traced none none (some [1, 0x61, 0x73, 0x6d, 1, 0, 0, 0, 9]) 9 true
    = ([0, 1, 2, 3], some { result := some "bad_magic", out := none }) := by decide

example : parse_module_traced none none (some [0, 0x61, 0x73, 0x6d, 1, 0, 0]) 7 true
    = ([], some { result := some "file_too_small", out := none }) := by decide


example : parse_module none none (some [0, 0x61, 0x73, 0x6d, 1, 0, 0, 0]) 8 true
    = some { result := none, out := some {} } := by decide

example : parse_module none none (some [0, 0x61, 0x73, 0x6d, 2, 0, 0, 0]) 8 true
    = some { result := some "bad_version", out := none } := by decide

example : parse_module none none (some [0, 0x61, 0x73]) 8 true = none := by decide

/-! ## Helper lemmas -/

theorem memcmp_bytes_eq_zero_iff (s1 s2 : List Nat) (h : s1.length = s2.length) :
    memcmp_bytes s1 s2 = 0 ↔ s1 = s2 := by
  induction s1 generalizing s2 with
  | nil =>
    cases s2 with
    | nil => simp [memcmp_bytes]
    | cons b s2 => simp at h
  | cons a s1 ih =>
    cases s2 with
    | nil => simp at h
    | cons b s2 =>
      simp only [List.length_cons, add_left_inj] at h
      by_cases hab : a = b
      · subst hab
        simp [memcmp_bytes, ih s2 h]
      · have hne : (a : Int) - (b : Int) ≠ 0 := by
          intro h0
          apply hab
          omega
        simp [memcmp_bytes, hab, hne]

/-- With `n` bytes available on both sides, `memcmp` returns and is zero
exactly when the two `n`-byte prefixes are equal. -/
theorem memcmp_of_le (s1 s2 : List Nat) (n : Nat) (h1 : n ≤ s1.length)
    (h2 : n ≤ s2.length) :
    ∃ c, memcmp s1 s2 n = some c ∧ (c = 0 ↔ s1.take n = s2.take n) := by
  refine ⟨memcmp_bytes (s1.take n) (s2.take n), ?_, ?_⟩
  · simp [memcmp, h1, h2]
  · apply memcmp_bytes_eq_zero_iff
    simp [List.length_take, h1, h2]

/-- A NULL buffer pointer is answered before any byte is looked at. -/
theorem parse_module_null (env : IEnvironment) (out : IModule) (size : Nat)
    (granted : Bool) :
    parse_module env out none size granted
      = some { result := some "file_too_small", out := out } := rfl

/-- A length below 8 is answered before any byte is looked at. -/
theorem parse_module_short (env : IEnvironment) (out : IModule)
    (wasm : Option (List Nat)) (size : Nat) (granted : Bool) (h : size < 8) :
    parse_module env out wasm size granted
      = some { result := some "file_too_small", out := out } := by
  cases wasm with
  | none => rfl
  | some buf => simp [parse_module, h]

/-- With 8 bytes present and the first four different from the magic
constant the call answers `bad_magic` and leaves `*out` alone. -/
theorem parse_module_magic_mismatch (env : IEnvironment) (out : IModule)
    (buf : List Nat) (size : Nat) (granted : Bool) (h8 : 8 ≤ size)
    (hlen : size ≤ buf.length) (hm : buf.take 4 ≠ WASM_MAGIC) :
    parse_module env out (some buf) size granted
      = some { result := some "bad_magic", out := out } := by
  obtain ⟨c, hc, hz⟩ := memcmp_of_le buf WASM_MAGIC 4 (by omega) (by simp [WASM_MAGIC])
  have hc0 : c ≠ 0 := by
    intro h0
    apply hm
    have := hz.mp h0
    simpa [WASM_MAGIC] using this
  have hs : ¬ size < 8 := by omega
  simp [parse_module, hs, hc, hc0]

/-- With 8 bytes present, the magic constant in place and bytes 4..7
different from the version constant the call answers `bad_version` and leaves
`*out` alone. -/
theorem parse_module_version_mismatch (env : IEnvironment) (out : IModule)
    (buf : List Nat) (size : Nat) (granted : Bool) (h8 : 8 ≤ size)
    (hlen : size ≤ buf.length) (hm : buf.take 4 = WASM_MAGIC)
    (hv : (buf.drop 4).take 4 ≠ WASM_VERSION) :
    parse_module env out (some buf) size granted
      = some { result := some "bad_version", out := out } := by
  obtain ⟨c, hc, hz⟩ := memcmp_of_le buf WASM_MAGIC 4 (by omega) (by simp [WASM_MAGIC])
  have hc0 : c = 0 := hz.mpr (by simpa [WASM_MAGIC] using hm)
  obtain ⟨d, hd, hdz⟩ := memcmp_of_le (buf.drop 4) WASM_VERSION 4
    (by simp only [List.length_drop]; omega) (by simp [WASM_VERSION])
  have hd0 : d ≠ 0 := by
    intro h0
    apply hv
    have := hdz.mp h0
    simpa [WASM_VERSION] using this
  have hs : ¬ size < 8 := by omega
  simp [parse_module, hs, hc, hc0, hd, hd0]

/-- With 8 bytes present and both constants in place the call reaches the
allocation, and its outcome is decided by the host alone. -/
theorem parse_module_header_ok (env : IEnvironment) (out : IModule)
    (buf : List Nat) (size : Nat) (granted : Bool) (h8 : 8 ≤ size)
    (hlen : size ≤ buf.length) (hm : buf.take 4 = WASM_MAGIC)
    (hv : (buf.drop 4).take 4 = WASM_VERSION) :
    parse_module env out (some buf) size granted
      = some (if granted then { result := none, out := some {} }
              else { result := some "malloc_failed", out := none }) := by
  obtain ⟨c, hc, hz⟩ := memcmp_of_le buf WASM_MAGIC 4 (by omega) (by simp [WASM_MAGIC])
  have hc0 : c = 0 := hz.mpr (by simpa [WASM_MAGIC] using hm)
  obtain ⟨d, hd, hdz⟩ := memcmp_of_le (buf.drop 4) WASM_VERSION 4
    (by simp only [List.length_drop]; omega) (by simp [WASM_VERSION])
  have hd0 : d = 0 := hdz.mpr (by simpa [WASM_VERSION] using hv)
  have hs : ¬ size < 8 := by omega
  cases granted <;> simp [parse_module, hs, hc, hc0, hd, hd0, malloc]

/-- Any buffer that begins with the two constants, passed with a length of at
least 8 that its object covers, reaches the allocation whatever follows. -/
theorem parse_module_header_append (env : IEnvironment) (out : IModule)
    (rest : List Nat) (size : Nat) (granted : Bool) (h8 : 8 ≤ size)
    (hlen : size ≤ 8 + rest.length) :
    parse_module env out (some (WASM_MAGIC ++ WASM_VERSION ++ rest)) size granted
      = some (if granted then { result := none, out := some {} }
              else { result := some "malloc_failed", out := none }) := by
  apply parse_module_header_ok env out _ size granted h8
  · simp [WASM_MAGIC, WASM_VERSION]; omega
  · simp [WASM_MAGIC, WASM_VERSION]
  · simp [WASM_MAGIC, WASM_VERSION]

/-- The first 8 bytes are the header exactly when the first 4 are the magic
constant and the next 4 the version constant. -/
theorem take_eight_eq_header_iff (buf : List Nat) (h : 8 ≤ buf.length) :
    buf.take 8 = [0x00, 0x61, 0x73, 0x6d, 0x01, 0x00, 0x00, 0x00] ↔
      buf.take 4 = WASM_MAGIC ∧ (buf.drop 4).take 4 = WASM_VERSION := by
  rcases buf with _ | ⟨b0, _ | ⟨b1, _ | ⟨b2, _ | ⟨b3, _ | ⟨b4, _ | ⟨b5, _ | ⟨b6, _ | ⟨b7, rest⟩⟩⟩⟩⟩⟩⟩⟩
    <;> simp at h
  simp only [WASM_MAGIC, WASM_VERSION, List.take_succ_cons, List.take_zero, List.drop_succ_cons,
    List.drop_zero, List.cons.injEq, and_true]
  tauto

/-- Under the buffer contract the call returns, and its result is the one the
priority list gives. -/
theorem parse_module_result_eq (env : IEnvironment) (out : IModule)
    (wasm : Option (List Nat)) (size : Nat) (granted : Bool)
    (hv : ValidBuffer wasm size) :
    (parse_module env out wasm size granted).map Outcome.result
      = some (header_result wasm size granted) := by
  cases wasm with
  | none => rfl
  | some buf =>
    have hlen : size ≤ buf.length := hv buf rfl
    by_cases hs : size < 8
    · rw [parse_module_short env out _ size granted hs]
      simp [header_result, hs]
    · have h8 : 8 ≤ size := by omega
      by_cases hm : buf.take 4 = WASM_MAGIC
      · by_cases hver : (buf.drop 4).take 4 = WASM_VERSION
        · rw [parse_module_header_ok env out buf size granted h8 hlen hm hver]
          have hm1 := hm
          have hv1 := hver
          simp only [WASM_MAGIC] at hm1
          simp only [WASM_VERSION] at hv1
          cases granted <;> simp [header_result, hs, hm1, hv1]
        · rw [parse_module_version_mismatch env out buf size granted h8 hlen hm hver]
          have hm1 := hm
          have hv1 := hver
          simp only [WASM_MAGIC] at hm1
          simp only [WASM_VERSION] at hv1
          simp [header_result, hs, hm1, hv1]
      · rw [parse_module_magic_mismatch env out buf size granted h8 hlen hm]
        have hm1 := hm
        simp only [WASM_MAGIC] at hm1
        simp [header_result, hs, hm1]

/-- Under the buffer contract the call returns an outcome; the result is the
one of the priority list, and `*out` holds a fresh `Module` on success, NULL
after a refused allocation, and its value at entry after a header failure. -/
theorem parse_module_outcome (env : IEnvironment) (out : IModule)
    (wasm : Option (List Nat)) (size : Nat) (granted : Bool)
    (hv : ValidBuffer wasm size) :
    ∃ o, parse_module env out wasm size granted = some o ∧
      o.result = header_result wasm size granted ∧
      ((o.result = none ∧ o.out = some {}) ∨
       (o.result = some "malloc_failed" ∧ o.out = none) ∨
       ((o.result = some "file_too_small" ∨ o.result = some "bad_magic" ∨
          o.result = some "bad_version") ∧ o.out = out)) := by
  have hres := parse_module_result_eq env out wasm size granted hv
  cases wasm with
  | none => exact ⟨_, rfl, rfl, by simp⟩
  | some buf =>
    have hlen : size ≤ buf.length := hv buf rfl
    by_cases hs : size < 8
    · have hp := parse_module_short env out (some buf) size granted hs
      rw [hp] at hres
      refine ⟨_, hp, ?_, by simp⟩
      simpa using hres
    · have h8 : 8 ≤ size := by omega
      by_cases hm : buf.take 4 = WASM_MAGIC
      · by_cases hver : (buf.drop 4).take 4 = WASM_VERSION
        · have hp := parse_module_header_ok env out buf size granted h8 hlen hm hver
          rw [hp] at hres
          refine ⟨_, hp, ?_, ?_⟩
          · simpa using hres
          · cases granted <;> simp
        · have hp := parse_module_version_mismatch env out buf size granted h8 hlen hm hver
          rw [hp] at hres
          refine ⟨_, hp, ?_, by simp⟩
          simpa using hres
      · have hp := parse_module_magic_mismatch env out buf size granted h8 hlen hm
        rw [hp] at hres
        refine ⟨_, hp, ?_, by simp⟩
        simpa using hres

/-- The priority list gives success, with the allocation granted, exactly for
a non-null buffer of at least 8 bytes that starts with the 8 header bytes. -/
theorem header_result_eq_none_iff (wasm : Option (List Nat)) (size : Nat)
    (hv : ValidBuffer wasm size) :
    header_result wasm size true = none ↔
      ∃ buf, wasm = some buf ∧ 8 ≤ size ∧
        buf.take 8 = [0x00, 0x61, 0x73, 0x6d, 0x01, 0x00, 0x00, 0x00] := by
  cases wasm with
  | none => simp [header_result]
  | some buf =>
    have hlen : size ≤ buf.length := hv buf rfl
    by_cases hs : size < 8
    · simp [header_result, hs]
    · have h8 : 8 ≤ buf.length := by omega
      have hh := take_eight_eq_header_iff buf h8
      simp only [WASM_MAGIC, WASM_VERSION] at hh
      have h8s : 8 ≤ size := by omega
      by_cases hm : buf.take 4 = [0x00, 0x61, 0x73, 0x6d]
      · by_cases hver : (buf.drop 4).take 4 = [0x01, 0x00, 0x00, 0x00]
        · simp [header_result, hs, hm, hver, h8s, hh]
        · simp [header_result, hs, hm, hver, h8s, hh]
      · simp [header_result, hs, hm, h8s, hh]

/-- The priority list names one of five results. -/
theorem header_result_mem (wasm : Option (List Nat)) (size : Nat) (granted : Bool) :
    header_result wasm size granted ∈
      [some "file_too_small", some "bad_magic", some "bad_version",
        some "malloc_failed", none] := by
  unfold header_result
  cases wasm with
  | none => simp
  | some buf =>
    simp only
    split_ifs <;> simp

/-- The result of the priority list looks at the length and at the first 8
bytes of the buffer only. -/
theorem header_result_take_eight (buf : List Nat) (size : Nat) (granted : Bool) :
    header_result (some (buf.take 8)) size granted = header_result (some buf) size granted := by
  have h1 : (buf.take 8).take 4 = buf.take 4 := by
    rw [List.take_take]; rfl
  have h2 : ((buf.take 8).drop 4).take 4 = (buf.drop 4).take 4 := by
    rw [List.drop_take, List.take_take]; rfl
  simp only [header_result, h1, h2]

/-- The offsets of one comparison are the `n` offsets from `base` on. -/
theorem mem_memcmp_offsets (base n i : Nat) :
    i ∈ memcmp_offsets base n ↔ base ≤ i ∧ i < base + n := by
  simp only [memcmp_offsets, List.mem_map, List.mem_range]
  constructor
  · rintro ⟨j, hj, rfl⟩
    omega
  · intro h
    exact ⟨i - base, by omega, by omega⟩

/-- Dropping the record of reads gives back `parse_module`. -/
theorem parse_module_traced_snd (env : IEnvironment) (out : IModule)
    (wasm : Option (List Nat)) (size : Nat) (granted : Bool) :
    (parse_module_traced env out wasm size granted).2
      = parse_module env out wasm size granted := by
  unfold parse_module_traced parse_module
  cases wasm with
  | none => rfl
  | some buf =>
    simp only
    split_ifs <;> try rfl
    all_goals (split <;> try rfl)
    all_goals (split_ifs <;> try rfl)
    all_goals (split <;> try rfl)
    all_goals (split_ifs <;> rfl)

/-- Every recorded read lies below 8, and a read is recorded only for a
non-null buffer passed with a length of at least 8. -/
theorem parse_module_traced_reads (env : IEnvironment) (out : IModule)
    (wasm : Option (List Nat)) (size : Nat) (granted : Bool) (i : Nat)
    (hi : i ∈ (parse_module_traced env out wasm size granted).1) :
    i < 8 ∧ 8 ≤ size ∧ wasm ≠ none := by
  unfold parse_module_traced at hi
  cases wasm with
  | none => simp at hi
  | some buf =>
    simp only at hi
    by_cases hs : size < 8
    · simp [hs] at hi
    · have h8 : 8 ≤ size := by omega
      refine ⟨?_, h8, by simp⟩
      have hcover : i ∈ memcmp_offsets 0 4 ++ memcmp_offsets 4 4 → i < 8 := by
        intro h
        rcases List.mem_append.mp h with h | h
        · have := (mem_memcmp_offsets 0 4 i).mp h
          omega
        · have := (mem_memcmp_offsets 4 4 i).mp h
          omega
      have hfirst : i ∈ memcmp_offsets 0 4 → i < 8 := by
        intro h
        exact hcover (List.mem_append.mpr (Or.inl h))
      rw [if_neg hs] at hi
      cases h1 : memcmp buf WASM_MAGIC 4 with
      | none =>
        simp only [h1] at hi
        exact hfirst hi
      | some c1 =>
        simp only [h1] at hi
        by_cases hc1 : c1 ≠ 0
        · rw [if_pos hc1] at hi
          exact hfirst hi
        · rw [if_neg hc1] at hi
          cases h2 : memcmp (buf.drop 4) WASM_VERSION 4 with
          | none =>
            simp only [h2] at hi
            exact hcover hi
          | some c2 =>
            simp only [h2] at hi
            by_cases hc2 : c2 ≠ 0
            · rw [if_pos hc2] at hi
              exact hcover hi
            · rw [if_neg hc2] at hi
              by_cases hm : (malloc granted).isNone
              · rw [if_pos hm] at hi
                exact hcover hi
              · rw [if_neg hm] at hi
                exact hcover hi

/-! ## The header errors -/

/-- C1. For every buffer whose length is below 8 (the empty buffer included),
whatever its bytes, `parse_module` returns the diagnostic `"file_too_small"`. -/
theorem parse_module_file_too_small (env : IEnvironment) (out : IModule)
    (wasm : Option (List Nat)) (size : Nat) (granted : Bool) (h : size < 8) :
    (parse_module env out wasm size granted).map Outcome.result
      = some (some "file_too_small") := by
  rw [parse_module_short env out wasm size granted h]
  rfl

theorem parse_module_file_too_small_witness :
    7 < 8 ∧
    (parse_module none none (some [0x00, 0x61, 0x73, 0x6d, 0x01, 0x00, 0x00]) 7 true).map
        Outcome.result = some (some "file_too_small") :=
  ⟨by decide, parse_module_file_too_small none none _ 7 true (by decide)⟩

/-- C2 as stated fails: the 7-byte buffer `ff 61 73 6d 01 00 00` does not start
with the magic constant, yet the answer is `"file_too_small"` and not
`"bad_magic"`. -/
theorem parse_module_bad_magic_any_length_counterexample :
    List.take 4 [0xff, 0x61, 0x73, 0x6d, 0x01, 0x00, 0x00] ≠ WASM_MAGIC ∧
    (parse_module none none (some [0xff, 0x61, 0x73, 0x6d, 0x01, 0x00, 0x00]) 7 true).map
        Outcome.result = some (some "file_too_small") ∧
    (parse_module none none (some [0xff, 0x61, 0x73, 0x6d, 0x01, 0x00, 0x00]) 7 true).map
        Outcome.result ≠ some (some "bad_magic") := by
  decide

/-- C2, amended. For every buffer of at least 8 bytes whose first 4 bytes are
not the magic constant `00 61 73 6d`, `parse_module` returns `"bad_magic"`,
whatever the bytes after the first four are (the version bytes included). -/
theorem parse_module_bad_magic (env : IEnvironment) (out : IModule)
    (buf : List Nat) (size : Nat) (granted : Bool) (h8 : 8 ≤ size)
    (hlen : size ≤ buf.length) (hm : buf.take 4 ≠ WASM_MAGIC) :
    (parse_module env out (some buf) size granted).map Outcome.result
      = some (some "bad_magic") := by
  rw [parse_module_magic_mismatch env out buf size granted h8 hlen hm]
  rfl

theorem parse_module_bad_magic_witness :
    8 ≤ 9 ∧ 9 ≤ [0x00, 0x61, 0x73, 0x6e, 0x02, 0x00, 0x00, 0x00, 0xff].length ∧
    List.take 4 [0x00, 0x61, 0x73, 0x6e, 0x02, 0x00, 0x00, 0x00, 0xff] ≠ WASM_MAGIC ∧
    (parse_module none none (some [0x00, 0x61, 0x73, 0x6e, 0x02, 0x00, 0x00, 0x00, 0xff]) 9
        true).map Outcome.result = some (some "bad_magic") :=
  ⟨by decide, by decide, by decide,
    parse_module_bad_magic none none _ 9 true (by decide) (by decide) (by decide)⟩

/-- C3. For every buffer of at least 8 bytes whose first 4 bytes are the magic
constant and whose bytes 4..7 differ from the version constant `01 00 00 00`,
`parse_module` returns `"bad_version"`, whatever follows offset 8. -/
theorem parse_module_bad_version (env : IEnvironment) (out : IModule)
    (buf : List Nat) (size : Nat) (granted : Bool) (h8 : 8 ≤ size)
    (hlen : size ≤ buf.length) (hm : buf.take 4 = WASM_MAGIC)
    (hv : (buf.drop 4).take 4 ≠ WASM_VERSION) :
    (parse_module env out (some buf) size granted).map Outcome.result
      = some (some "bad_version") := by
  rw [parse_module_version_mismatch env out buf size granted h8 hlen hm hv]
  rfl

theorem parse_module_bad_version_witness :
    8 ≤ 10 ∧ 10 ≤ [0x00, 0x61, 0x73, 0x6d, 0x01, 0x00, 0x00, 0x01, 0x07, 0x09].length ∧
    List.take 4 [0x00, 0x61, 0x73, 0x6d, 0x01, 0x00, 0x00, 0x01, 0x07, 0x09] = WASM_MAGIC ∧
    List.take 4 (List.drop 4 [0x00, 0x61, 0x73, 0x6d, 0x01, 0x00, 0x00, 0x01, 0x07, 0x09])
      ≠ WASM_VERSION ∧
    (parse_module none none (some [0x00, 0x61, 0x73, 0x6d, 0x01, 0x00, 0x00, 0x01, 0x07, 0x09])
        10 true).map Outcome.result = some (some "bad_version") :=
  ⟨by decide, by decide, by decide, by decide,
    parse_module_bad_version none none _ 10 true (by decide) (by decide) (by decide)
      (by decide)⟩

/-! ## Success on a bare header -/

/-- C4. For the 8-byte buffer `00 61 73 6d 01 00 00 00` (magic constant, then
version constant), with the allocation granted, `parse_module` returns NULL (no
diagnostic) and `*out` holds a `Module`; the struct has no member, so the
module carries no section. -/
theorem parse_module_header_only (env : IEnvironment) (out : IModule) :
    parse_module env out (some [0x00, 0x61, 0x73, 0x6d, 0x01, 0x00, 0x00, 0x00]) 8 true
      = some { result := none, out := some {} } := by
  have h := parse_module_header_append env out [] 8 true (le_refl 8) (le_refl 8)
  simpa [WASM_MAGIC, WASM_VERSION] using h

/-! ## One of a Module or a diagnostic -/

/-- C5. Under the buffer contract `parse_module` returns, and what the caller
sees is exactly one of: success (NULL result) with a `Module` in `*out`; the
diagnostic `"malloc_failed"` with NULL in `*out`; a header diagnostic
(`"file_too_small"`, `"bad_magic"`, `"bad_version"`) with `*out` exactly as
the caller had it. So an error never comes with a stored `Module`, and a
success always does. -/
theorem parse_module_module_or_diagnostic (env : IEnvironment) (out : IModule)
    (wasm : Option (List Nat)) (size : Nat) (granted : Bool)
    (hv : ValidBuffer wasm size) :
    ∃ o, parse_module env out wasm size granted = some o ∧
      ((o.result = none ∧ o.out = some {}) ∨
       (o.result = some "malloc_failed" ∧ o.out = none) ∨
       ((o.result = some "file_too_small" ∨ o.result = some "bad_magic" ∨
          o.result = some "bad_version") ∧ o.out = out)) := by
  obtain ⟨o, ho, _, hcases⟩ := parse_module_outcome env out wasm size granted hv
  exact ⟨o, ho, hcases⟩

theorem parse_module_module_or_diagnostic_witness :
    ValidBuffer (some [0x00, 0x61, 0x73, 0x6d, 0x01, 0x00, 0x00, 0x00, 0x01, 0x01, 0x00]) 11 ∧
    ∃ o, parse_module (some 5) none
          (some [0x00, 0x61, 0x73, 0x6d, 0x01, 0x00, 0x00, 0x00, 0x01, 0x01, 0x00]) 11 false
          = some o ∧
      ((o.result = none ∧ o.out = some {}) ∨
       (o.result = some "malloc_failed" ∧ o.out = none) ∨
       ((o.result = some "file_too_small" ∨ o.result = some "bad_magic" ∨
          o.result = some "bad_version") ∧ o.out = none)) :=
  ⟨by decide, parse_module_module_or_diagnostic (some 5) none _ 11 false (by decide)⟩

/-! ## What follows the header -/

/-- C6 as stated fails: the 14-byte buffer made of the header and two empty
type sections `01 01 00 01 01 00` is accepted (NULL result, a `Module` in
`*out`); no diagnostic is returned. -/
theorem parse_module_duplicate_section_counterexample :
    parse_module none none
        (some [0x00, 0x61, 0x73, 0x6d, 0x01, 0x00, 0x00, 0x00,
               0x01, 0x01, 0x00, 0x01, 0x01, 0x00]) 14 true
      = some { result := none, out := some {} } := by
  decide

/-- C6, amended. For every buffer that starts with a valid 8-byte header and
then holds two occurrences of the same section identifier `id` (anything
before, between and after them), `parse_module` does not look at the sections:
it returns success when the allocation is granted and `"malloc_failed"` when it
is refused. -/
theorem parse_module_duplicate_section_accepted (env : IEnvironment) (out : IModule)
    (id : Nat) (before body1 between body2 : List Nat) (granted : Bool) :
    (parse_module env out
        (some (WASM_MAGIC ++ WASM_VERSION ++
          (before ++ id :: body1 ++ between ++ id :: body2)))
        (8 + (before ++ id :: body1 ++ between ++ id :: body2).length) granted).map
        Outcome.result
      = some (if granted then none else some "malloc_failed") := by
  rw [parse_module_header_append env out _ _ granted (Nat.le_add_right 8 _) (le_refl _)]
  cases granted <;> rfl

/-- C7 as stated fails: the 25-byte buffer made of the header, a type section
with one type `01 04 01 60 00 00`, a function section declaring 2 entries
`03 03 02 00 00` and a code section declaring 1 entry `0a 04 01 02 00 0b` is
accepted (NULL result, a `Module` in `*out`); no diagnostic is returned. -/
theorem parse_module_function_code_count_counterexample :
    parse_module none none
        (some [0x00, 0x61, 0x73, 0x6d, 0x01, 0x00, 0x00, 0x00,
               0x01, 0x04, 0x01, 0x60, 0x00, 0x00,
               0x03, 0x03, 0x02, 0x00, 0x00,
               0x0a, 0x04, 0x01, 0x02, 0x00, 0x0b]) 25 true
      = some { result := none, out := some {} } := by
  decide

/-- C7, amended. For every buffer that starts with a valid 8-byte header and
then holds a function section (identifier 3, any size byte) declaring 2
entries and a code section (identifier 10, any size byte) declaring 1 entry,
whatever stands before, between and after them, `parse_module` does not compare
the two counts: it returns success when the allocation is granted and
`"malloc_failed"` when it is refused. -/
theorem parse_module_function_code_count_accepted (env : IEnvironment) (out : IModule)
    (fsize csize : Nat) (before fbody between cbody : List Nat) (granted : Bool) :
    (parse_module env out
        (some (WASM_MAGIC ++ WASM_VERSION ++
          (before ++ 3 :: fsize :: 2 :: fbody ++ between ++ 10 :: csize :: 1 :: cbody)))
        (8 + (before ++ 3 :: fsize :: 2 :: fbody ++ between
              ++ 10 :: csize :: 1 :: cbody).length) granted).map
        Outcome.result
      = some (if granted then none else some "malloc_failed") := by
  rw [parse_module_header_append env out _ _ granted (Nat.le_add_right 8 _) (le_refl _)]
  cases granted <;> rfl

/-- C8. For the 11-byte buffer made of the magic constant, the version
constant and an empty type section `01 01 00`, with the allocation granted,
`parse_module` returns NULL (no diagnostic) and `*out` holds a `Module`; the
struct has no member, so the module holds no function type. -/
theorem parse_module_empty_type_section (env : IEnvironment) (out : IModule) :
    parse_module env out
        (some [0x00, 0x61, 0x73, 0x6d, 0x01, 0x00, 0x00, 0x00, 0x01, 0x01, 0x00]) 11 true
      = some { result := none, out := some {} } := by
  have h := parse_module_header_append env out [0x01, 0x01, 0x00] 11 true (by decide)
    (by decide)
  simpa [WASM_MAGIC, WASM_VERSION] using h

/-! ## Determinism and the complete characterisation -/

/-- C9. Two calls of `parse_module` on the same bytes and length, each with its
allocation granted, whatever `env` and the prior content of `*out` are in each,
both return, with the same result; when that result is success both calls
leave a `Module` in `*out` and the two modules are equal. -/
theorem parse_module_deterministic (env1 env2 : IEnvironment) (out1 out2 : IModule)
    (wasm : Option (List Nat)) (size : Nat) (hv : ValidBuffer wasm size) :
    ∃ o1 o2, parse_module env1 out1 wasm size true = some o1 ∧
      parse_module env2 out2 wasm size true = some o2 ∧
      o1.result = o2.result ∧
      (o1.result = none → ∃ m1 m2, o1.out = some m1 ∧ o2.out = some m2 ∧ m1 = m2) := by
  obtain ⟨o1, h1, r1, c1⟩ := parse_module_outcome env1 out1 wasm size true hv
  obtain ⟨o2, h2, r2, c2⟩ := parse_module_outcome env2 out2 wasm size true hv
  refine ⟨o1, o2, h1, h2, r1.trans r2.symm, ?_⟩
  intro hs
  have hs2 : o2.result = none := by rw [r2, ← r1]; exact hs
  refine ⟨{}, {}, ?_, ?_, rfl⟩
  · rcases c1 with ⟨_, h⟩ | ⟨h, _⟩ | ⟨h, _⟩
    · exact h
    · rw [hs] at h; cases h
    · rw [hs] at h; simp at h
  · rcases c2 with ⟨_, h⟩ | ⟨h, _⟩ | ⟨h, _⟩
    · exact h
    · rw [hs2] at h; cases h
    · rw [hs2] at h; simp at h

theorem parse_module_deterministic_witness :
    ValidBuffer (some [0x00, 0x61, 0x73, 0x6d, 0x01, 0x00, 0x00, 0x00, 0x2a]) 9 ∧
    ∃ o1 o2,
      parse_module none none
        (some [0x00, 0x61, 0x73, 0x6d, 0x01, 0x00, 0x00, 0x00, 0x2a]) 9 true = some o1 ∧
      parse_module (some 1) (some {})
        (some [0x00, 0x61, 0x73, 0x6d, 0x01, 0x00, 0x00, 0x00, 0x2a]) 9 true = some o2 ∧
      o1.result = o2.result ∧
      (o1.result = none → ∃ m1 m2, o1.out = some m1 ∧ o2.out = some m2 ∧ m1 = m2) :=
  ⟨by decide, parse_module_deterministic none (some 1) none (some {}) _ 9 (by decide)⟩

/-- C10. Under the buffer contract `parse_module` returns; its result is the
one the priority list `header_result` names (`file_too_small`, then
`bad_magic`, then `bad_version`, then `malloc_failed`, then success), hence one
of these five; and with the allocation granted the result is success exactly
when the buffer pointer is non-null, `size ≥ 8` and the first 8 bytes are
`00 61 73 6d 01 00 00 00`. -/
theorem parse_module_characterisation (env : IEnvironment) (out : IModule)
    (wasm : Option (List Nat)) (size : Nat) (granted : Bool)
    (hv : ValidBuffer wasm size) :
    (parse_module env out wasm size granted).map Outcome.result
        = some (header_result wasm size granted) ∧
    (∃ r, (parse_module env out wasm size granted).map Outcome.result = some r ∧
      r ∈ [some "file_too_small", some "bad_magic", some "bad_version",
            some "malloc_failed", none]) ∧
    ((parse_module env out wasm size true).map Outcome.result = some none ↔
      ∃ buf, wasm = some buf ∧ 8 ≤ size ∧
        buf.take 8 = [0x00, 0x61, 0x73, 0x6d, 0x01, 0x00, 0x00, 0x00]) := by
  refine ⟨parse_module_result_eq env out wasm size granted hv,
    ⟨_, parse_module_result_eq env out wasm size granted hv,
      header_result_mem wasm size granted⟩, ?_⟩
  rw [parse_module_result_eq env out wasm size true hv, Option.some_inj]
  exact header_result_eq_none_iff wasm size hv

theorem parse_module_characterisation_witness :
    ValidBuffer (some [0x00, 0x61, 0x73, 0x6d, 0x01, 0x00, 0x00, 0x00, 0x00, 0xff]) 10 ∧
    (parse_module none none
        (some [0x00, 0x61, 0x73, 0x6d, 0x01, 0x00, 0x00, 0x00, 0x00, 0xff]) 10 false).map
        Outcome.result
        = some (header_result
            (some [0x00, 0x61, 0x73, 0x6d, 0x01, 0x00, 0x00, 0x00, 0x00, 0xff]) 10 false) ∧
    (∃ r, (parse_module none none
        (some [0x00, 0x61, 0x73, 0x6d, 0x01, 0x00, 0x00, 0x00, 0x00, 0xff]) 10 false).map
        Outcome.result = some r ∧
      r ∈ [some "file_too_small", some "bad_magic", some "bad_version",
            some "malloc_failed", none]) ∧
    ((parse_module none none
        (some [0x00, 0x61, 0x73, 0x6d, 0x01, 0x00, 0x00, 0x00, 0x00, 0xff]) 10 true).map
        Outcome.result = some none ↔
      ∃ buf, some [0x00, 0x61, 0x73, 0x6d, 0x01, 0x00, 0x00, 0x00, 0x00, 0xff] = some buf ∧
        8 ≤ 10 ∧ buf.take 8 = [0x00, 0x61, 0x73, 0x6d, 0x01, 0x00, 0x00, 0x00]) :=
  ⟨by decide, parse_module_characterisation none none _ 10 false (by decide)⟩

/-! ## Independence from what follows the header, and the bounds of the reads -/

/-- C11. For any two buffers of at least 8 bytes that agree on their first 8
bytes, any two `env` arguments and any prior contents of `*out`, with the same
answer of the allocator, both calls of `parse_module` return and give the same
result; in particular, when the common first 8 bytes are the header
`00 61 73 6d 01 00 00 00` and the allocation is granted, both buffers are
accepted, whatever follows the header and however long it is. -/
theorem parse_module_depends_on_header_only (env1 env2 : IEnvironment)
    (out1 out2 : IModule) (buf1 buf2 : List Nat) (size1 size2 : Nat) (granted : Bool)
    (h1 : 8 ≤ size1) (hl1 : size1 ≤ buf1.length)
    (h2 : 8 ≤ size2) (hl2 : size2 ≤ buf2.length)
    (hagree : buf1.take 8 = buf2.take 8) :
    (∃ r, (parse_module env1 out1 (some buf1) size1 granted).map Outcome.result = some r ∧
          (parse_module env2 out2 (some buf2) size2 granted).map Outcome.result = some r) ∧
    (buf1.take 8 = [0x00, 0x61, 0x73, 0x6d, 0x01, 0x00, 0x00, 0x00] →
      (parse_module env1 out1 (some buf1) size1 true).map Outcome.result = some none ∧
      (parse_module env2 out2 (some buf2) size2 true).map Outcome.result = some none) := by
  have hv1 : ValidBuffer (some buf1) size1 := by
    intro b hb; cases hb; exact hl1
  have hv2 : ValidBuffer (some buf2) size2 := by
    intro b hb; cases hb; exact hl2
  have hs1 : ¬ size1 < 8 := by omega
  have hs2 : ¬ size2 < 8 := by omega
  have hsame : ∀ g, header_result (some buf1) size1 g = header_result (some buf2) size2 g := by
    intro g
    rw [← header_result_take_eight buf1 size1 g, ← header_result_take_eight buf2 size2 g,
      hagree]
    simp only [header_result, hs1, hs2, if_false]
  refine ⟨⟨header_result (some buf1) size1 granted,
    parse_module_result_eq env1 out1 _ size1 granted hv1, ?_⟩, ?_⟩
  · rw [hsame granted]
    exact parse_module_result_eq env2 out2 _ size2 granted hv2
  · intro hhdr
    have hr1 : header_result (some buf1) size1 true = none :=
      (header_result_eq_none_iff (some buf1) size1 hv1).mpr ⟨buf1, rfl, h1, hhdr⟩
    have hr2 : header_result (some buf2) size2 true = none := by
      rw [← hsame true]; exact hr1
    constructor
    · rw [parse_module_result_eq env1 out1 _ size1 true hv1, hr1]
    · rw [parse_module_result_eq env2 out2 _ size2 true hv2, hr2]

theorem parse_module_depends_on_header_only_witness :
    8 ≤ 8 ∧ 8 ≤ [0x00, 0x61, 0x73, 0x6d, 0x01, 0x00, 0x00, 0x00].length ∧
    8 ≤ 12 ∧
    12 ≤ [0x00, 0x61, 0x73, 0x6d, 0x01, 0x00, 0x00, 0x00, 0xde, 0xad, 0xbe, 0xef].length ∧
    List.take 8 [0x00, 0x61, 0x73, 0x6d, 0x01, 0x00, 0x00, 0x00]
      = List.take 8 [0x00, 0x61, 0x73, 0x6d, 0x01, 0x00, 0x00, 0x00, 0xde, 0xad, 0xbe, 0xef] ∧
    ((∃ r,
        (parse_module none none (some [0x00, 0x61, 0x73, 0x6d, 0x01, 0x00, 0x00, 0x00]) 8
          true).map Outcome.result = some r ∧
        (parse_module (some 3) (some {})
          (some [0x00, 0x61, 0x73, 0x6d, 0x01, 0x00, 0x00, 0x00, 0xde, 0xad, 0xbe, 0xef]) 12
          true).map Outcome.result = some r) ∧
     (List.take 8 [0x00, 0x61, 0x73, 0x6d, 0x01, 0x00, 0x00, 0x00]
        = [0x00, 0x61, 0x73, 0x6d, 0x01, 0x00, 0x00, 0x00] →
      (parse_module none none (some [0x00, 0x61, 0x73, 0x6d, 0x01, 0x00, 0x00, 0x00]) 8
          true).map Outcome.result = some none ∧
      (parse_module (some 3) (some {})
          (some [0x00, 0x61, 0x73, 0x6d, 0x01, 0x00, 0x00, 0x00, 0xde, 0xad, 0xbe, 0xef]) 12
          true).map Outcome.result = some none)) :=
  ⟨by decide, by decide, by decide, by decide, by decide,
    parse_module_depends_on_header_only none (some 3) none (some {}) _ _ 8 12 true
      (by decide) (by decide) (by decide) (by decide) (by decide)⟩

/-- C12. Under the buffer contract every read of `parse_module` is in bounds:
the traced run has the value of `parse_module`; each offset it reads is one of
0..7, lies inside the buffer object, and is read only when the pointer is
non-null and `size ≥ 8`; for a NULL pointer (any size) or a size below 8 no
byte is read and the result is `"file_too_small"`; and with `size ≥ 8` neither
comparison takes its out-of-bounds branch, so the call returns an outcome. -/
theorem parse_module_reads_in_bounds (env : IEnvironment) (out : IModule)
    (wasm : Option (List Nat)) (size : Nat) (granted : Bool)
    (hv : ValidBuffer wasm size) :
    (parse_module_traced env out wasm size granted).2
        = parse_module env out wasm size granted ∧
    (∀ i ∈ (parse_module_traced env out wasm size granted).1,
      i < 8 ∧ 8 ≤ size ∧ ∃ buf, wasm = some buf ∧ i < buf.length) ∧
    ((wasm = none ∨ size < 8) →
      (parse_module_traced env out wasm size granted).1 = [] ∧
      (parse_module env out wasm size granted).map Outcome.result
        = some (some "file_too_small")) ∧
    (8 ≤ size → ∀ buf, wasm = some buf →
      memcmp buf WASM_MAGIC 4 ≠ none ∧ memcmp (buf.drop 4) WASM_VERSION 4 ≠ none ∧
      parse_module env out wasm size granted ≠ none) := by
  refine ⟨parse_module_traced_snd env out wasm size granted, ?_, ?_, ?_⟩
  · intro i hi
    obtain ⟨hi8, hs8, hnn⟩ := parse_module_traced_reads env out wasm size granted i hi
    cases wasm with
    | none => exact absurd rfl hnn
    | some buf =>
      have hlen : size ≤ buf.length := hv buf rfl
      exact ⟨hi8, hs8, buf, rfl, by omega⟩
  · intro h
    constructor
    · cases wasm with
      | none => rfl
      | some buf =>
        rcases h with h | h
        · cases h
        · simp [parse_module_traced, h]
    · cases wasm with
      | none => rfl
      | some buf =>
        rcases h with h | h
        · cases h
        · rw [parse_module_short env out _ size granted h]
          rfl
  · intro h8 buf hbuf
    subst hbuf
    have hlen : size ≤ buf.length := hv buf rfl
    obtain ⟨c, hc, _⟩ := memcmp_of_le buf WASM_MAGIC 4 (by omega) (by simp [WASM_MAGIC])
    obtain ⟨d, hd, _⟩ := memcmp_of_le (buf.drop 4) WASM_VERSION 4
      (by simp only [List.length_drop]; omega) (by simp [WASM_VERSION])
    obtain ⟨o, ho, _⟩ := parse_module_outcome env out (some buf) size granted hv
    refine ⟨?_, ?_, ?_⟩
    · rw [hc]; simp
    · rw [hd]; simp
    · rw [ho]; simp

theorem parse_module_reads_in_bounds_witness :
    ValidBuffer (some [0x00, 0x61, 0x73, 0x6d, 0x01, 0x00, 0x00, 0x00, 0x07]) 9 ∧
    ((parse_module_traced none none
        (some [0x00, 0x61, 0x73, 0x6d, 0x01, 0x00, 0x00, 0x00, 0x07]) 9 true).2
        = parse_module none none
            (some [0x00, 0x61, 0x73, 0x6d, 0x01, 0x00, 0x00, 0x00, 0x07]) 9 true ∧
    (∀ i ∈ (parse_module_traced none none
        (some [0x00, 0x61, 0x73, 0x6d, 0x01, 0x00, 0x00, 0x00, 0x07]) 9 true).1,
      i < 8 ∧ 8 ≤ 9 ∧
        ∃ buf, some [0x00, 0x61, 0x73, 0x6d, 0x01, 0x00, 0x00, 0x00, 0x07] = some buf ∧
          i < buf.length) ∧
    ((some [0x00, 0x61, 0x73, 0x6d, 0x01, 0x00, 0x00, 0x00, 0x07] = none ∨ 9 < 8) →
      (parse_module_traced none none
        (some [0x00, 0x61, 0x73, 0x6d, 0x01, 0x00, 0x00, 0x00, 0x07]) 9 true).1 = [] ∧
      (parse_module none none
        (some [0x00, 0x61, 0x73, 0x6d, 0x01, 0x00, 0x00, 0x00, 0x07]) 9 true).map
        Outcome.result = some (some "file_too_small")) ∧
    (8 ≤ 9 → ∀ buf, some [0x00, 0x61, 0x73, 0x6d, 0x01, 0x00, 0x00, 0x00, 0x07] = some buf →
      memcmp buf WASM_MAGIC 4 ≠ none ∧ memcmp (buf.drop 4) WASM_VERSION 4 ≠ none ∧
      parse_module none none
        (some [0x00, 0x61, 0x73, 0x6d, 0x01, 0x00, 0x00, 0x00, 0x07]) 9 true ≠ none)) :=
  ⟨by decide, parse_module_reads_in_bounds none none _ 9 true (by decide)⟩

end Wasmica
